import Mathlib

/-!
Shallow embedding of the starfield repository.

The repository has two source files:

* `src/starfield/__init__.py` — the `starfield` class rewriter.  Given an
  attrs-processed class it validates that exactly one field descriptor
  carries the `STARFIELD_KEY`/`is_starfield` metadata marker, replaces the
  class `__init__` with a wrapper that collects trailing positional
  arguments into a keyword binding before delegating to `__attrs_init__`,
  and returns a new descriptor list in which the non-variadic descriptors
  are evolved to `kw_only=True`.  Note the source assigns
  `variadic_attribute = attributes[0]` (the literal first descriptor of
  the class), not the marker-bearing descriptor it just searched for; the
  embedding reproduces this faithfully.

* `src/attrs_extensions/root.py` — the `root` field wrapper, a
  `delegate(field, ignore=["init", "default"])`-decorated forwarder to the
  attrs `field` primitive.

Python values that flow through the machinery are modelled by `Val`
(scalar objects) and `Obj` (a scalar or a tuple of scalars); keyword
mappings, instances and configuration mappings are association lists with
Python-dict update semantics (`dictSet` replaces an existing binding in
place, otherwise appends).
-/

/-- Decidable equality for `Except`, so that runs of the embedded code can
be compared to expected results by `decide`. -/
instance {ε α : Type} [DecidableEq ε] [DecidableEq α] :
    DecidableEq (Except ε α) := fun x y =>
  match x, y with
  | .ok a, .ok b =>
    if h : a = b then isTrue (by rw [h])
    else isFalse (by intro hc; cases hc; exact h rfl)
  | .error e, .error f =>
    if h : e = f then isTrue (by rw [h])
    else isFalse (by intro hc; cases hc; exact h rfl)
  | .ok _, .error _ => isFalse (by intro hc; cases hc)
  | .error _, .ok _ => isFalse (by intro hc; cases hc)

/-- Scalar Python value appearing as a constructor argument, a default, or
a configuration entry.  `nothing` models the attrs `NOTHING` sentinel,
`pyNone` models Python `None`. -/
inductive Val where
  | int : Int → Val
  | str : String → Val
  | bool : Bool → Val
  | pyNone : Val
  | nothing : Val
  deriving DecidableEq, Repr

/-- Python object stored in a field or passed by keyword: a scalar or a
tuple of scalars (the shape `*args` takes in this code). -/
inductive Obj where
  | v : Val → Obj
  | tuple : List Val → Obj
  deriving DecidableEq, Repr

/-- Lookup in a keyword mapping (Python `kwargs[k]` / `k in kwargs`). -/
def dictGet {α : Type} (d : List (String × α)) (k : String) : Option α :=
  (d.find? (fun p => p.1 == k)).map (fun p => p.2)

/-- Python `k in kwargs`. -/
def dictContains {α : Type} (d : List (String × α)) (k : String) : Bool :=
  d.any (fun p => p.1 == k)

/-- Python `kwargs[k] = v`: replace the existing binding for `k` if there
is one, otherwise append the new binding at the end. -/
def dictSet {α : Type} (d : List (String × α)) (k : String) (v : α) :
    List (String × α) :=
  match d with
  | [] => [(k, v)]
  | p :: rest => if p.1 == k then (k, v) :: rest else p :: dictSet rest k v

/-- An attrs `Attribute` field descriptor, restricted to the parts this
repository reads: `name`, `default` (`Option.none` models attrs
`NOTHING`), the `init` participation flag, the `kw_only` flag, and the
only metadata entry the code consults,
`metadata.get(STARFIELD_KEY, {}).get("is_starfield")`, flattened to the
Boolean `is_starfield`. -/
structure Attribute where
  name : String
  default : Option Obj
  init : Bool
  kw_only : Bool
  is_starfield : Bool
  deriving DecidableEq, Repr

/-- attrs `attribute.evolve(kw_only=True)`: a fresh descriptor equal to
the original except for the keyword-only flag. -/
def Attribute.evolveKwOnly (a : Attribute) : Attribute :=
  { a with kw_only := true }

/-- The mutable state of the target class that `starfield` touches: its
name (used in the `TypeError` message), the `__attrs_attrs__` descriptor
list (absent when the class was not processed by attrs), and the
installed replacement `__init__`, identified by the field name the
closure captured (`variadic_attribute.name`); `Option.none` means the
generated initializer has not been replaced. -/
structure ClassState where
  name : String
  attrs_attrs : Option (List Attribute)
  starInit : Option String
  deriving DecidableEq, Repr

/-- Errors raised by `starfield` at class-processing time. -/
inductive StarErr where
  | typeError (className : String) : StarErr
  | cardinality (offending : List Attribute) : StarErr
  deriving DecidableEq, Repr

/-- Errors raised by the generated `__attrs_init__` when called with a
keyword mapping. -/
inductive AttrsErr where
  | unexpectedKeyword (k : String) : AttrsErr
  | missingArgument (k : String) : AttrsErr
  deriving DecidableEq, Repr

/-- Errors raised by the replacement `__init__`. -/
inductive InitErr where
  | ambiguousStarField (fieldName : String) : InitErr
  | attrs (e : AttrsErr) : InitErr
  deriving DecidableEq, Repr

/-- The list comprehension
`[a for a in attributes if a.metadata.get(STARFIELD_KEY, {}).get("is_starfield")]`. -/
def variadicAttributes (attributes : List Attribute) : List Attribute :=
  attributes.filter (fun a => a.is_starfield)

/-- First attribute whose name is `k` (how the generated initializer
resolves a keyword to a field). -/
def findAttr (attributes : List Attribute) (k : String) : Option Attribute :=
  attributes.find? (fun a => a.name == k)

/-- Whether `k` names a constructor parameter of the generated
`__attrs_init__`, i.e. an `init=True` attribute. -/
def isInitName (attributes : List Attribute) (k : String) : Bool :=
  attributes.any (fun a => a.name == k && a.init)

/-- Modelled from the spec and the attrs calling convention for the
generated all-keyword initializer: each attribute in declaration order is
bound to its keyword value when one participates in `__init__` and was
supplied, else to its declared default, else (for an `init=True`
attribute) the call fails with a missing-argument error; an `init=False`
attribute without a default is left unset.  The result is the instance,
as a name-to-value mapping in attribute order. -/
def assignFields (attributes : List Attribute) (kwargs : List (String × Obj)) :
    Except AttrsErr (List (String × Obj)) :=
  match attributes with
  | [] => .ok []
  | a :: rest =>
    match (if a.init then dictGet kwargs a.name else Option.none), a.default with
    | some v, _ =>
      match assignFields rest kwargs with
      | .ok inst => .ok ((a.name, v) :: inst)
      | .error e => .error e
    | Option.none, some d =>
      match assignFields rest kwargs with
      | .ok inst => .ok ((a.name, d) :: inst)
      | .error e => .error e
    | Option.none, Option.none =>
      if a.init then .error (.missingArgument a.name)
      else assignFields rest kwargs

/-- Modelled from the spec: `self.__attrs_init__(**kwargs)`, the
attrs-generated initializer of the original class (the attrs library is
an external collaborator, not part of `src/`).  A keyword that does not
name an `init=True` attribute is rejected as unexpected; otherwise the
fields are assigned per `assignFields`. -/
def attrsInitRun (attributes : List Attribute) (kwargs : List (String × Obj)) :
    Except AttrsErr (List (String × Obj)) :=
  match kwargs.find? (fun p => !(isInitName attributes p.1)) with
  | some p => .error (.unexpectedKeyword p.1)
  | Option.none => assignFields attributes kwargs

/-- The replacement `__init__` that `starfield` installs
(`src/starfield/__init__.py`, lines 30–44), as a function of the captured
`variadic_attribute.name`, the class attributes consulted by
`__attrs_init__`, and the call arguments: raise the ambiguous-supply
error when the captured name is among the keywords and positional
arguments are present; otherwise bind `kwargs[variadic_attribute.name] =
args` and delegate to `__attrs_init__`. -/
def starInitRun (varname : String) (attributes : List Attribute)
    (args : List Val) (kwargs : List (String × Obj)) :
    Except InitErr (List (String × Obj)) :=
  if dictContains kwargs varname && !args.isEmpty then
    .error (.ambiguousStarField varname)
  else
    match attrsInitRun attributes (dictSet kwargs varname (Obj.tuple args)) with
    | .ok inst => .ok inst
    | .error e => .error (.attrs e)

/-- `starfield(target_class)` (`src/starfield/__init__.py`, lines 11–51):
raise `TypeError` naming the class when `__attrs_attrs__` is absent;
filter the marker-bearing attributes and raise the cardinality
`ValueError` carrying that offending list when its length is not one;
otherwise take `variadic_attribute = attributes[0]` (the source's literal
first descriptor), install the replacement `__init__` capturing its name,
and return the descriptor list with every attribute other than
`variadic_attribute` evolved to `kw_only=True`.  The second component is
the post-call state of the target class. -/
def starfieldRun (cls : ClassState) :
    Except StarErr (List Attribute) × ClassState :=
  match cls.attrs_attrs with
  | Option.none => (.error (.typeError cls.name), cls)
  | some [] => (.error (.cardinality (variadicAttributes [])), cls)
  | some (a0 :: rest) =>
    if (variadicAttributes (a0 :: rest)).length ≠ 1 then
      (.error (.cardinality (variadicAttributes (a0 :: rest))), cls)
    else
      (.ok ((a0 :: rest).map (fun a => if a = a0 then a else a.evolveKwOnly)),
        { cls with starInit := some a0.name })

/-- Effective configuration of an attrs field descriptor as produced by
the `field` primitive: the effective `init` option, the effective
`default` option, and the remaining configuration forwarded unchanged. -/
structure FieldDesc where
  init : Obj
  default : Obj
  rest : List (String × Obj)
  deriving DecidableEq, Repr

/-- Modelled from the spec: the attrs `field(**kwargs)` primitive (an
external collaborator, not part of `src/`).  Its own defaults are
`init=True` and `default=NOTHING`; every other configuration entry is
kept unchanged. -/
def fieldPrim (kwargs : List (String × Obj)) : FieldDesc :=
  { init := (dictGet kwargs "init").getD (Obj.v (Val.bool true)),
    default := (dictGet kwargs "default").getD (Obj.v Val.nothing),
    rest := kwargs.filter (fun p => !(p.1 == "init") && !(p.1 == "default")) }

/-- Error surfaced by the delegation mechanism for a suppressed option. -/
inductive DelegateErr where
  | unexpectedKeyword (k : String) : DelegateErr
  deriving DecidableEq, Repr

/-- Modelled from the spec: the `delegate(field, ignore=["init",
"default"])` decorator from the external delegatefn library is not part
of this repository's sources.  Per the spec, supplying a suppressed
option explicitly is a configuration error surfaced by the delegation
mechanism, not by the wrapper itself; so a call whose keyword mapping
mentions an ignored key is rejected, and any other call invokes the
wrapped body unchanged. -/
def delegateCall (ignored : List String)
    (body : List (String × Obj) → FieldDesc)
    (kwargs : List (String × Obj)) : Except DelegateErr FieldDesc :=
  match kwargs.find? (fun p => ignored.contains p.1) with
  | some p => .error (.unexpectedKeyword p.1)
  | Option.none => .ok (body kwargs)

/-- `root(**kwargs)` (`src/attrs_extensions/root.py`, lines 10–15): the
delegate-decorated forwarder whose body is `return field(**kwargs)`. -/
def root (kwargs : List (String × Obj)) : Except DelegateErr FieldDesc :=
  delegateCall ["init", "default"] fieldPrim kwargs

/-! Concrete descriptors and classes used as evaluation inputs. -/

/-- Unmarked first field of the two-field example class. -/
def attrA : Attribute :=
  { name := "a", default := Option.none, init := true, kw_only := false,
    is_starfield := false }

/-- Marker-bearing second field of the two-field example class, with a
declared default of `0`. -/
def attrB : Attribute :=
  { name := "b", default := some (Obj.v (Val.int 0)), init := true,
    kw_only := false, is_starfield := true }

/-- Example attrs class whose marker-bearing field is not the first
descriptor. -/
def clsAB : ClassState :=
  { name := "P", attrs_attrs := some [attrA, attrB], starInit := Option.none }

/-- Marker-bearing sole field of the one-field example class. -/
def attrXs : Attribute :=
  { name := "xs", default := Option.none, init := true, kw_only := false,
    is_starfield := true }

/-- Example attrs class with a single, marker-bearing field. -/
def clsX : ClassState :=
  { name := "Q", attrs_attrs := some [attrXs], starInit := Option.none }

/-- Marker-bearing sole field carrying a declared default of `0`. -/
def attrXd : Attribute :=
  { name := "ys", default := some (Obj.v (Val.int 0)), init := true,
    kw_only := false, is_starfield := true }

/-- Example class without attrs processing. -/
def clsNoAttrs : ClassState :=
  { name := "C", attrs_attrs := Option.none, starInit := Option.none }

/-- Example class with two marker-bearing fields. -/
def clsTwoMarks : ClassState :=
  { name := "R", attrs_attrs := some [attrXs, attrXd], starInit := Option.none }

/-! Helper lemmas about the dictionary operations and the generated
initializer. -/

/-- After `kwargs[k] = v`, looking up `k` yields `v`. -/
theorem dictGet_dictSet {α : Type} (d : List (String × α)) (k : String) (v : α) :
    dictGet (dictSet d k v) k = some v := by
  induction d with
  | nil => simp [dictSet, dictGet]
  | cons p rest ih =>
    by_cases h : p.1 == k
    · simp [dictSet, h, dictGet]
    · simp only [dictSet, h, if_false, Bool.false_eq_true]
      simpa [dictGet, List.find?_cons_of_neg, h] using ih

/-- When `k` is absent from `d`, looking it up yields nothing. -/
theorem dictGet_eq_none_of_not_contains {α : Type} (d : List (String × α))
    (k : String) (h : dictContains d k = false) : dictGet d k = Option.none := by
  induction d with
  | nil => simp [dictGet]
  | cons p rest ih =>
    simp only [dictContains, List.any_cons, Bool.or_eq_false_iff] at h
    simp [dictGet, List.find?_cons_of_neg, h.1]
    simpa [dictGet] using ih (by simp [dictContains, h.2])

/-- When `k` is absent from `d`, a lookup in `d ++ e` falls through to `e`. -/
theorem dictGet_append_of_not_contains {α : Type} (d e : List (String × α))
    (k : String) (h : dictContains d k = false) :
    dictGet (d ++ e) k = dictGet e k := by
  induction d with
  | nil => simp
  | cons p rest ih =>
    simp only [dictContains, List.any_cons, Bool.or_eq_false_iff] at h
    simp only [List.cons_append, dictGet, List.find?_cons_of_neg, h.1,
      Bool.false_eq_true, not_false_iff]
    exact ih (by simp [dictContains, h.2])

/-- Field assignment resolves the first attribute named `k`, when it
participates in `__init__` and a keyword value was supplied, to exactly
that value. -/
theorem assignFields_lookup (attributes : List Attribute) :
    ∀ (kwargs : List (String × Obj)) (k : String) (a : Attribute) (v : Obj)
      (inst : List (String × Obj)),
      findAttr attributes k = some a → a.init = true →
      dictGet kwargs k = some v →
      assignFields attributes kwargs = .ok inst →
      dictGet inst k = some v := by
  induction attributes with
  | nil => intro kwargs k a v inst hfind; simp [findAttr] at hfind
  | cons b rest ih =>
    intro kwargs k a v inst hfind hinit hv hok
    by_cases hbk : b.name == k
    · have hba : b = a := by
        simpa [findAttr, List.find?_cons_of_pos, hbk] using hfind
      subst hba
      have hbn : b.name = k := by simpa using hbk
      simp only [assignFields, hinit, if_true, hbn, hv] at hok
      cases hrest : assignFields rest kwargs with
      | ok inst2 =>
        rw [hrest] at hok
        cases hok
        simp [dictGet, List.find?_cons_of_pos, hbk]
      | error e => rw [hrest] at hok; cases hok
    · have hfind2 : findAttr rest k = some a := by
        simpa [findAttr, List.find?_cons_of_neg, hbk] using hfind
      simp only [assignFields] at hok
      cases hw : (if b.init then dictGet kwargs b.name else Option.none) with
      | some w =>
        rw [hw] at hok
        cases hrest : assignFields rest kwargs with
        | ok inst2 =>
          rw [hrest] at hok
          cases hok
          simp only [dictGet, List.find?_cons_of_neg, hbk, Bool.false_eq_true,
            not_false_iff]
          simpa [dictGet] using ih kwargs k a v inst2 hfind2 hinit hv hrest
        | error e => rw [hrest] at hok; cases hok
      | none =>
        rw [hw] at hok
        cases hd : b.default with
        | some d =>
          rw [hd] at hok
          cases hrest : assignFields rest kwargs with
          | ok inst2 =>
            rw [hrest] at hok
            cases hok
            simp only [dictGet, List.find?_cons_of_neg, hbk, Bool.false_eq_true,
              not_false_iff]
            simpa [dictGet] using ih kwargs k a v inst2 hfind2 hinit hv hrest
          | error e => rw [hrest] at hok; cases hok
        | none =>
          rw [hd] at hok
          by_cases hbi : b.init
          · simp [hbi] at hok
          · simp only [hbi, if_false, Bool.false_eq_true] at hok
            exact ih kwargs k a v inst hfind2 hinit hv hok

/-- When the guard of the replacement initializer is not taken, the run
is exactly the delegated `__attrs_init__` run on the rewritten keyword
mapping. -/
theorem starInitRun_delegates (varname : String) (attributes : List Attribute)
    (args : List Val) (kwargs : List (String × Obj))
    (h : (dictContains kwargs varname && !args.isEmpty) = false) :
    starInitRun varname attributes args kwargs =
      Except.mapError InitErr.attrs
        (attrsInitRun attributes (dictSet kwargs varname (Obj.tuple args))) := by
  simp only [starInitRun, h, Bool.false_eq_true, if_false]
  cases attrsInitRun attributes (dictSet kwargs varname (Obj.tuple args)) <;>
    simp [Except.mapError]

/-- A map of a function that relates every element to its image is
pointwise related to the original list. -/
theorem forall2_map_self {α : Type} (R : α → α → Prop) (f : α → α)
    (l : List α) (h : ∀ a ∈ l, R (f a) a) :
    List.Forall₂ R (l.map f) l := by
  induction l with
  | nil => simp
  | cons a t ih =>
    simp only [List.map_cons]
    exact List.Forall₂.cons (h a (by simp))
      (ih (fun b hb => h b (by simp [hb])))

/-- Whenever the replacement initializer succeeds, the instance holds the
positional-argument tuple under the captured field name. -/
theorem starInitRun_ok_lookup (varname : String) (attributes : List Attribute)
    (args : List Val) (kwargs : List (String × Obj)) (a : Attribute)
    (inst : List (String × Obj))
    (hfind : findAttr attributes varname = some a) (hinit : a.init = true)
    (hok : starInitRun varname attributes args kwargs = .ok inst) :
    dictGet inst varname = some (Obj.tuple args) := by
  by_cases hguard : (dictContains kwargs varname && !args.isEmpty) = true
  · simp [starInitRun, hguard] at hok
  · rw [starInitRun_delegates varname attributes args kwargs
      (by simpa using hguard)] at hok
    cases hA : attrsInitRun attributes (dictSet kwargs varname (Obj.tuple args)) with
    | ok inst2 =>
      rw [hA] at hok
      simp only [Except.mapError, Except.ok.injEq] at hok
      subst hok
      have hassign : assignFields attributes
          (dictSet kwargs varname (Obj.tuple args)) = .ok inst2 := by
        simp only [attrsInitRun] at hA
        cases hF : (dictSet kwargs varname (Obj.tuple args)).find?
            (fun p => !(isInitName attributes p.1)) with
        | some p => rw [hF] at hA; cases hA
        | none => rw [hF] at hA; exact hA
      exact assignFields_lookup attributes _ varname a (Obj.tuple args) inst2
        hfind hinit (dictGet_dictSet _ _ _) hassign
    | error e => rw [hA] at hok; simp [Except.mapError] at hok

/-! Claim theorems. -/

/-- Claim C1 (evaluation of the code at the failing input): on the
two-field class whose marker-bearing descriptor is `attrB`, the second
descriptor, the installed initializer captures the first descriptor's
name `a`, so constructing with two positional arguments stores the
positional tuple under the unmarked field `a` and leaves the marked field
`b` at its declared default — the marked variadic field does not hold the
supplied values. -/
theorem starfield_positional_args_miss_marked_field :
    attrB.is_starfield = true ∧ attrA.is_starfield = false ∧
    (starfieldRun clsAB).2.starInit = some "a" ∧
    starInitRun "a" [attrA, attrB] [Val.int 1, Val.int 2] [] =
      .ok [("a", Obj.tuple [Val.int 1, Val.int 2]), ("b", Obj.v (Val.int 0))] ∧
    dictGet [("a", Obj.tuple [Val.int 1, Val.int 2]), ("b", Obj.v (Val.int 0))]
      "b" ≠ some (Obj.tuple [Val.int 1, Val.int 2]) := by
  decide

/-- Claim C3 (evaluation of the code at the failing input): on the same
class, constructing with one positional argument together with an
explicit keyword value for the marked field `b` does not raise the
ambiguous-supply error — the installed initializer only watches the first
descriptor's name `a` — and the construction call succeeds. -/
theorem starfield_ambiguity_check_watches_wrong_name :
    attrB.is_starfield = true ∧
    (starfieldRun clsAB).2.starInit = some "a" ∧
    starInitRun "a" [attrA, attrB] [Val.int 1] [("b", Obj.v (Val.int 5))] =
      .ok [("a", Obj.tuple [Val.int 1]), ("b", Obj.v (Val.int 5))] := by
  decide

/-- Claim C5 (evaluation of the code at the failing input): on the same
class, the returned descriptor list leaves the unmarked first descriptor
`attrA` untouched and forces the marker-bearing descriptor `attrB` to
keyword-only — the opposite of the claimed treatment of the marked
descriptor. -/
theorem starfield_kwonly_flags_inverted :
    attrB.is_starfield = true ∧ attrA.is_starfield = false ∧
    attrA.kw_only = false ∧ attrB.kw_only = false ∧
    (starfieldRun clsAB).1 = .ok [attrA, { attrB with kw_only := true }] := by
  decide

/-- Claim C2 (counterexample): on the single-field class, constructing
with zero positional arguments and the explicit keyword value `7` for the
variadic field `xs` succeeds but stores the empty tuple, not the supplied
keyword value. -/
theorem starfield_keyword_value_clobbered :
    attrXs.is_starfield = true ∧
    (starfieldRun clsX).2.starInit = some "xs" ∧
    starInitRun "xs" [attrXs] [] [("xs", Obj.v (Val.int 7))] =
      .ok [("xs", Obj.tuple [])] ∧
    Obj.tuple [] ≠ Obj.v (Val.int 7) := by
  decide

/-- Claim C2 (amended): constructing with zero positional arguments and
an explicit keyword value for the captured field raises no
ambiguous-supply error and behaves exactly as delegating to
`__attrs_init__` with the field rebound to the empty positional tuple;
the keyword value is discarded, and on success the field holds the empty
tuple. -/
theorem starInit_zero_args_keyword_discarded (varname : String)
    (attributes : List Attribute) (kwargs : List (String × Obj))
    (a : Attribute) (inst : List (String × Obj))
    (hfind : findAttr attributes varname = some a) (hinit : a.init = true) :
    starInitRun varname attributes [] kwargs =
      Except.mapError InitErr.attrs
        (attrsInitRun attributes (dictSet kwargs varname (Obj.tuple []))) ∧
    dictGet (dictSet kwargs varname (Obj.tuple [])) varname =
      some (Obj.tuple []) ∧
    (starInitRun varname attributes [] kwargs = .ok inst →
      dictGet inst varname = some (Obj.tuple [])) := by
  refine ⟨starInitRun_delegates varname attributes [] kwargs (by simp),
    dictGet_dictSet _ _ _, ?_⟩
  intro hok
  exact starInitRun_ok_lookup varname attributes [] kwargs a inst hfind hinit hok

/-- Witness for `starInit_zero_args_keyword_discarded` at the single-field
class, keyword value `7`. -/
theorem starInit_zero_args_keyword_discarded_witness :
    starInitRun "xs" [attrXs] [] [("xs", Obj.v (Val.int 7))] =
      Except.mapError InitErr.attrs
        (attrsInitRun [attrXs]
          (dictSet [("xs", Obj.v (Val.int 7))] "xs" (Obj.tuple []))) ∧
    dictGet (dictSet [("xs", Obj.v (Val.int 7))] "xs" (Obj.tuple [])) "xs" =
      some (Obj.tuple []) ∧
    (starInitRun "xs" [attrXs] [] [("xs", Obj.v (Val.int 7))] =
        .ok [("xs", Obj.tuple [])] →
      dictGet [("xs", Obj.tuple [])] "xs" = some (Obj.tuple [])) :=
  starInit_zero_args_keyword_discarded "xs" [attrXs]
    [("xs", Obj.v (Val.int 7))] attrXs [("xs", Obj.tuple [])]
    (by decide) (by decide)

/-- Claim C4: with `__attrs_attrs__` present, processing succeeds exactly
when the number of marker-bearing descriptors is one; otherwise it fails
with the cardinality error carrying the offending descriptor list. -/
theorem starfield_cardinality (cls : ClassState) (attributes : List Attribute)
    (h : cls.attrs_attrs = some attributes) :
    if (variadicAttributes attributes).length = 1
    then ∃ out, (starfieldRun cls).1 = .ok out
    else (starfieldRun cls).1 =
      .error (.cardinality (variadicAttributes attributes)) := by
  obtain ⟨nm, aa, si⟩ := cls
  simp only at h
  subst h
  cases attributes with
  | nil => simp [starfieldRun, variadicAttributes]
  | cons a0 rest =>
    by_cases hc : (variadicAttributes (a0 :: rest)).length = 1
    · simp only [hc, if_true]
      refine ⟨(a0 :: rest).map (fun a => if a = a0 then a else a.evolveKwOnly), ?_⟩
      simp [starfieldRun, hc]
    · simp only [hc, if_false]
      simp [starfieldRun, hc]

/-- Witness for `starfield_cardinality` at the single-field class. -/
theorem starfield_cardinality_witness :
    if (variadicAttributes [attrXs]).length = 1
    then ∃ out, (starfieldRun clsX).1 = .ok out
    else (starfieldRun clsX).1 =
      .error (.cardinality (variadicAttributes [attrXs])) :=
  starfield_cardinality clsX [attrXs] rfl

/-- Claim C7: a successful run leaves the target class unchanged except
for the replaced `__init__` — in particular `__attrs_attrs__` still holds
the original, unmutated descriptors — and the returned list matches the
input position-for-position, each entry being either the original
descriptor itself or a freshly derived `evolve(kw_only=True)` copy of
it. -/
theorem starfield_frame (cls : ClassState) (out : List Attribute)
    (h : (starfieldRun cls).1 = .ok out) :
    (∃ n, (starfieldRun cls).2 = { cls with starInit := some n }) ∧
    ∃ attributes, cls.attrs_attrs = some attributes ∧
      (starfieldRun cls).2.attrs_attrs = some attributes ∧
      List.Forall₂ (fun b a => b = a ∨ b = a.evolveKwOnly) out attributes := by
  obtain ⟨nm, aa, si⟩ := cls
  cases aa with
  | none => simp [starfieldRun] at h
  | some attributes =>
    cases attributes with
    | nil => simp [starfieldRun] at h
    | cons a0 rest =>
      by_cases hc : (variadicAttributes (a0 :: rest)).length = 1
      · have hout :
            (a0 :: rest).map (fun a => if a = a0 then a else a.evolveKwOnly) =
              out := by
          simpa [starfieldRun, hc] using h
        refine ⟨⟨a0.name, by simp [starfieldRun, hc]⟩,
          a0 :: rest, rfl, by simp [starfieldRun, hc], ?_⟩
        rw [← hout]
        apply forall2_map_self
        intro a ha
        by_cases hA : a = a0
        · exact Or.inl (by simp [hA])
        · exact Or.inr (by simp [hA])
      · simp [starfieldRun, hc] at h

/-- Witness for `starfield_frame` at the single-field class. -/
theorem starfield_frame_witness :
    (∃ n, (starfieldRun clsX).2 = { clsX with starInit := some n }) ∧
    ∃ attributes, clsX.attrs_attrs = some attributes ∧
      (starfieldRun clsX).2.attrs_attrs = some attributes ∧
      List.Forall₂ (fun b a => b = a ∨ b = a.evolveKwOnly) [attrXs] attributes :=
  starfield_frame clsX [attrXs] (by decide)

/-- Claim C8: a class without `__attrs_attrs__` is rejected with a
`TypeError` naming the class, and the class is left untouched — no
descriptor scanning result and no constructor replacement. -/
theorem starfield_requires_attrs_class (cls : ClassState)
    (h : cls.attrs_attrs = Option.none) :
    starfieldRun cls = (.error (.typeError cls.name), cls) := by
  obtain ⟨nm, aa, si⟩ := cls
  cases aa with
  | none => rfl
  | some l => simp at h

/-- Witness for `starfield_requires_attrs_class` at the unprocessed
class. -/
theorem starfield_requires_attrs_class_witness :
    starfieldRun clsNoAttrs = (.error (.typeError "C"), clsNoAttrs) :=
  starfield_requires_attrs_class clsNoAttrs rfl

/-- Claim C9: when the cardinality check fails, `starfield` raises before
installing the replacement initializer, so the returned class state is
exactly the input class — its `__init__` slot is not replaced. -/
theorem starfield_cardinality_error_no_mutation (cls : ClassState)
    (attributes : List Attribute) (h : cls.attrs_attrs = some attributes)
    (hc : (variadicAttributes attributes).length ≠ 1) :
    starfieldRun cls =
      (.error (.cardinality (variadicAttributes attributes)), cls) := by
  obtain ⟨nm, aa, si⟩ := cls
  simp only at h
  subst h
  cases attributes with
  | nil => rfl
  | cons a0 rest => simp [starfieldRun, hc]

/-- Witness for `starfield_cardinality_error_no_mutation` at the class
with two marker-bearing fields. -/
theorem starfield_cardinality_error_no_mutation_witness :
    starfieldRun clsTwoMarks =
      (.error (.cardinality (variadicAttributes [attrXs, attrXd])),
        clsTwoMarks) :=
  starfield_cardinality_error_no_mutation clsTwoMarks [attrXs, attrXd]
    rfl (by decide)

/-- Claim C10: when no keyword value is supplied for the captured field
name, the replacement initializer always binds the positional tuple under
that name and then delegates to `__attrs_init__`; in particular,
constructing with zero positional arguments sets the captured field to
the empty tuple on success, so its declared default is never applied. -/
theorem starInit_always_binds_args (varname : String)
    (attributes : List Attribute) (kwargs : List (String × Obj))
    (args : List Val) (a : Attribute) (inst : List (String × Obj))
    (hmem : dictContains kwargs varname = false)
    (hfind : findAttr attributes varname = some a) (hinit : a.init = true) :
    starInitRun varname attributes args kwargs =
      Except.mapError InitErr.attrs
        (attrsInitRun attributes (dictSet kwargs varname (Obj.tuple args))) ∧
    (starInitRun varname attributes [] kwargs = .ok inst →
      dictGet inst varname = some (Obj.tuple [])) := by
  refine ⟨starInitRun_delegates varname attributes args kwargs
    (by simp [hmem]), ?_⟩
  intro hok
  exact starInitRun_ok_lookup varname attributes [] kwargs a inst hfind hinit hok

/-- Witness for `starInit_always_binds_args` at the single-field class
whose variadic field carries the declared default `0`: the constructed
field is the empty tuple, not the default. -/
theorem starInit_always_binds_args_witness :
    (starInitRun "ys" [attrXd] [] [] =
      Except.mapError InitErr.attrs
        (attrsInitRun [attrXd] (dictSet [] "ys" (Obj.tuple []))) ∧
    (starInitRun "ys" [attrXd] [] [] = .ok [("ys", Obj.tuple [])] →
      dictGet [("ys", Obj.tuple [])] "ys" = some (Obj.tuple []))) ∧
    attrXd.default = some (Obj.v (Val.int 0)) ∧
    starInitRun "ys" [attrXd] [] [] = .ok [("ys", Obj.tuple [])] :=
  ⟨starInit_always_binds_args "ys" [attrXd] [] [] attrXd
      [("ys", Obj.tuple [])] (by decide) (by decide) (by decide),
    by decide, by decide⟩

/-- A keyword mapping containing none of the listed keys has no entry the
delegation wrapper's scan can find. -/
theorem find_ignored_none (kwargs : List (String × Obj)) (ks : List String)
    (h : ∀ k ∈ ks, dictContains kwargs k = false) :
    kwargs.find? (fun p => ks.contains p.1) = Option.none := by
  induction kwargs with
  | nil => rfl
  | cons p rest ih =>
    have hp : ks.contains p.1 = false := by
      rw [Bool.eq_false_iff]
      intro hmem
      have hks : p.1 ∈ ks := by simpa using hmem
      have hcc := h p.1 hks
      simp [dictContains] at hcc
    rw [List.find?_cons_of_neg _ (by simpa using hp)]
    refine ih (fun k hk => ?_)
    have := h k hk
    simp only [dictContains, List.any_cons, Bool.or_eq_false_iff] at this
    simpa [dictContains] using this.2

/-- Claim C6: a configuration without the two suppressed options is
forwarded to the field primitive and yields exactly the descriptor the
primitive produces with `init=True` and `default=NOTHING` merged into the
configuration; a call supplying the suppressed option `init` explicitly
is rejected by the delegation wrapper. -/
theorem root_forwards_and_suppresses (kwargs : List (String × Obj))
    (hi : dictContains kwargs "init" = false)
    (hd : dictContains kwargs "default" = false) :
    root kwargs =
      .ok (fieldPrim (kwargs ++
        [("init", Obj.v (Val.bool true)), ("default", Obj.v Val.nothing)])) ∧
    root [("init", Obj.v (Val.bool false))] =
      .error (.unexpectedKeyword "init") := by
  constructor
  · have hnone : kwargs.find?
        (fun p => (["init", "default"] : List String).contains p.1) =
          Option.none := by
      refine find_ignored_none kwargs _ (fun k hk => ?_)
      simp only [List.mem_cons, List.not_mem_nil, or_false] at hk
      rcases hk with h1 | h2
      · rw [h1]; exact hi
      · rw [h2]; exact hd
    simp only [root, delegateCall, hnone]
    have h1 : dictGet kwargs "init" = Option.none :=
      dictGet_eq_none_of_not_contains _ _ hi
    have h2 : dictGet kwargs "default" = Option.none :=
      dictGet_eq_none_of_not_contains _ _ hd
    have h3 := dictGet_append_of_not_contains kwargs
      [("init", Obj.v (Val.bool true)), ("default", Obj.v Val.nothing)]
      "init" hi
    have h4 := dictGet_append_of_not_contains kwargs
      [("init", Obj.v (Val.bool true)), ("default", Obj.v Val.nothing)]
      "default" hd
    have h5 : dictGet
        [("init", Obj.v (Val.bool true)), ("default", Obj.v Val.nothing)]
        "init" = some (Obj.v (Val.bool true)) := by decide
    have h6 : dictGet
        [("init", Obj.v (Val.bool true)), ("default", Obj.v Val.nothing)]
        "default" = some (Obj.v Val.nothing) := by decide
    have h7 : ([("init", Obj.v (Val.bool true)),
        ("default", Obj.v Val.nothing)] :
          List (String × Obj)).filter
        (fun p => !(p.1 == "init") && !(p.1 == "default")) = [] := by decide
    simp only [fieldPrim, h1, h2, h3, h4, h5, h6, List.filter_append, h7,
      List.append_nil, Option.getD_some, Option.getD_none]
  · decide

/-- Witness for `root_forwards_and_suppresses` at a one-entry
configuration. -/
theorem root_forwards_and_suppresses_witness :
    root [("factory", Obj.v (Val.str "f"))] =
      .ok (fieldPrim ([("factory", Obj.v (Val.str "f"))] ++
        [("init", Obj.v (Val.bool true)), ("default", Obj.v Val.nothing)])) ∧
    root [("init", Obj.v (Val.bool false))] =
      .error (.unexpectedKeyword "init") :=
  root_forwards_and_suppresses [("factory", Obj.v (Val.str "f"))]
    (by decide) (by decide)
